import Mathlib

/-!
Verification of the PartDesign Revolution feature evaluator
(src/Mod/PartDesign/App/FeatureRevolution.cpp).

The geometry kernel (OpenCASCADE) and the surrounding document framework are
external collaborators; they are modelled as a structure of abstract, pure
operations (`Kernel`), exactly the capability surface the feature invokes.
`Revolution::execute` is translated control-point by control-point into
`execute` below; exceptions become an `ExecError` value, and the mutation of
the persisted properties (`Base`, `Axis`, `Shape`, `AddSubShape`) becomes
explicit state passing on `RevState`.
-/

namespace FeatureRevolution

attribute [local semireducible] Rat.add Rat.mul Rat.inv Rat.sub Rat.ofScientific

/-- The termination-mode enumeration, in source order:
TypeEnums = Angle, UpToLast, UpToFirst, UpToFace, TwoAngles. -/
inductive RevolType where
  | angle
  | upToLast
  | upToFirst
  | upToFace
  | twoAngles
deriving DecidableEq

/-- A 3D vector with exact rational coordinates, standing for Base::Vector3d,
gp_Pnt and gp_Dir values. -/
structure Vec3 where
  x : ℚ
  y : ℚ
  z : ℚ
deriving DecidableEq

/-- The exact rational value of the IEEE-754 double constant for pi
(the value of M_PI used by the degree-to-radian conversion). -/
def mPi : ℚ := 884279719003555 / 281474976710656

/-- Modelled from the spec: radians(Angle), the degree-to-radian conversion
Base::toRadians of Base/Tools.h, which is outside the provided sources;
it is linear scaling by pi/180. -/
def toRadians (d : ℚ) : ℚ := d * mPi / 180

/-- Modelled from the spec: the kernel-defined angular precision epsilon
kAngularEpsilon (OCCT Precision::Angular(), whose value is 1.0e-12;
OCCT is outside the provided sources). -/
def precisionAngular : ℚ := 1 / 1000000000000

/-- The structured failures execute() can report; each constructor corresponds
to one DocumentObjectExecReturn message or one caught exception in the source. -/
inductive ExecError where
  /-- Line 87: Angle of revolution too large. -/
  | angleTooLarge
  /-- Line 91: Angle of revolution too small. -/
  | angleTooSmall
  /-- Lines 101-103: getVerifiedFace threw; message is forwarded. -/
  | profileError (msg : String)
  /-- Lines 116-120: updateAxis threw; message is forwarded. -/
  | axisError (msg : String)
  /-- Line 130: Creating a face from sketch failed. -/
  | faceFromSketchFailed
  /-- Line 162: Revolve axis intersects the sketch. -/
  | axisIntersectsSketch
  /-- Line 176: Revolution up to first/last is not yet supported. -/
  | upToFirstLastNotSupported
  /-- Line 172: getFaceFromLinkSub threw. -/
  | upToFaceLinkError (msg : String)
  /-- Line 178: getUpToFace threw. -/
  | upToFaceError (msg : String)
  /-- Line 188: Up to face: Could not revolve the sketch. -/
  | couldNotRevolveUpToFace
  /-- Line 206: Could not revolve the sketch. -/
  | couldNotRevolve
  /-- Line 227: Fusion with base feature failed. -/
  | fusionFailed
  /-- Line 235: Could not revolve the sketch (null result). -/
  | noSolidProduced
deriving DecidableEq

/-- The outcome of one recomputation: StdReturn or a DocumentObjectExecReturn. -/
inductive ExecOutcome where
  | success
  | failure (e : ExecError)
deriving DecidableEq

/-- The abstract geometry-kernel / framework capability surface consumed by
Revolution::execute, with shape type S and transformation type T.
Fallible operations return Except (a thrown exception) or Option
(an IsDone() flag that is false). -/
structure Kernel (S : Type) (T : Type) where
  /-- A default-constructed TopoDS_Shape. -/
  nullShape : S
  /-- TopoDS_Shape::IsNull. -/
  isNull : S → Bool
  /-- ProfileBased::getVerifiedFace (line 101). -/
  getVerifiedFace : Except String S
  /-- ProfileBased::getBaseShape (line 109). -/
  getBaseShape : Except String S
  /-- ProfileBased::getAxis on ReferenceAxis under ForbiddenAxis::NotParallelWithNormal
  (line 269), producing the base point and direction. -/
  getAxis : Except String (Vec3 × Vec3)
  /-- gp_Trsf::SetRotation about gp_Ax1(pnt, dir) by an angle (lines 136-137). -/
  rotation : Vec3 → Vec3 → ℚ → T
  /-- TopoDS_Shape::Move by a TopLoc_Location (lines 139, 145, 154-155). -/
  move : S → T → S
  /-- this->getLocation().Inverted() after positionByPrevious() (lines 150-151). -/
  invObjLoc : T
  /-- gp_Pnt::Transform (line 152). -/
  transformPnt : T → Vec3 → Vec3
  /-- gp_Dir::Transform (line 153). -/
  transformDir : T → Vec3 → Vec3
  /-- TopExp_Explorer over TopAbs_FACE (lines 158-160, 183, 201). -/
  faces : S → List S
  /-- ProfileBased::checkLineCrossesFace on gp_Lin(pnt, dir) (line 161). -/
  checkLineCrossesFace : Vec3 × Vec3 → S → Bool
  /-- ProfileBased::getSupportFace (line 166). -/
  getSupportFace : S
  /-- ProfileBased::getFaceFromLinkSub on UpToFace (line 172). -/
  getFaceFromLinkSub : Except String S
  /-- ProfileBased::getUpToFace(upToFace, base, sketchshape, method, dir) (line 178);
  returns the adjusted bounding face. -/
  getUpToFace : S → S → S → RevolType → Vec3 → Except String S
  /-- BRepFeat_MakeRevol Init(base, face, supportface, axis, mode, true) then
  Perform(angle) (lines 202-203); none when IsDone() is false. -/
  revolveAngle : S → S → S → Vec3 × Vec3 → Nat → ℚ → Option S
  /-- BRepFeat_MakeRevol Init then Perform(upToFace) (lines 184-185);
  none when IsDone() is false. -/
  revolveUpTo : S → S → S → Vec3 × Vec3 → Nat → S → Option S
  /-- BRepAlgoAPI_Fuse (line 224); none when IsDone() is false. -/
  fuse : S → S → Option S
  /-- FeatureAddSub::refineShapeIfActive (lines 218, 229). -/
  refine : S → S
  /-- Part::Feature::getSolid (line 232). -/
  getSolid : S → S
  /-- ProfileBased::getReversedAngle (line 260). -/
  getReversedAngle : Vec3 → Vec3 → ℚ

/-- The persisted fields of the Revolution feature read or written by
execute(), suggestReversed() and updateAxis(). -/
structure RevState (S : Type) where
  /-- Property Type (the termination mode). -/
  Type' : RevolType
  /-- Property Base (derived, read-only). -/
  Base : Vec3
  /-- Property Axis (derived, read-only). -/
  Axis : Vec3
  /-- Property Angle, in degrees. -/
  Angle : ℚ
  /-- Property Angle2, in degrees. -/
  Angle2 : ℚ
  /-- Property Reversed. -/
  Reversed : Bool
  /-- Property Midplane. -/
  Midplane : Bool
  /-- Property Shape: the committed solid. -/
  Shape : S
  /-- Property AddSubShape: the committed swept (pre-fusion) solid. -/
  AddSubShape : S
deriving DecidableEq

/-- Lines 96-97 together with line 89: the signed sweep angle in radians;
the sign is flipped exactly when Reversed is set and Midplane is not. -/
def signedAngle {S : Type} (s : RevState S) : ℚ :=
  if s.Reversed && !s.Midplane then -(toRadians s.Angle) else toRadians s.Angle

/-- Lines 134-148, the sketch part: the profile is pre-rotated about the
resolved axis by -radians(Angle)/2 when Midplane is set, otherwise by
-angle2 when Type is TwoAngles, otherwise left alone. -/
def preRotatedSketch {S T : Type} (k : Kernel S T) (s1 : RevState S) (sk : S)
    (angle2 : ℚ) : S :=
  if s1.Midplane then
    k.move sk (k.rotation s1.Base s1.Axis (-(toRadians s1.Angle) / 2))
  else if s1.Type' = .twoAngles then
    k.move sk (k.rotation s1.Base s1.Axis (-angle2))
  else sk

/-- Line 147: only the TwoAngles branch (with Midplane not set) enlarges the
sweep angle to angle + angle2. -/
def adjustedAngle {S : Type} (s1 : RevState S) (angle angle2 : ℚ) : ℚ :=
  if s1.Midplane then angle
  else if s1.Type' = .twoAngles then angle + angle2
  else angle

/-- Line 169: the three termination modes that take the bounded-by-face branch. -/
def isUpTo (t : RevolType) : Prop :=
  t = .upToFace ∨ t = .upToFirst ∨ t = .upToLast

instance (t : RevolType) : Decidable (isUpTo t) := by
  unfold isUpTo; infer_instance

/-- Lines 181-193 and 199-211: the per-face revolve loop. step base face mode
is RevolMaker.Init(base, face, supportface, axis, mode, true) followed by
Perform; none means IsDone() was false, which raises err. The mode flag drops
from 2 to 1 after the first face. -/
def revolveLoop {S : Type} (step : S → S → Nat → Option S) (err : ExecError) :
    S → Nat → List S → Except ExecError S
  | base, _, [] => .ok base
  | base, mode, f :: fs =>
    match step base f mode with
    | none => .error err
    | some b => revolveLoop step err b (if mode = 2 then 1 else mode) fs

/-- Lines 217-235: commit of a non-null result: refine it, store it in
AddSubShape, fuse with the (loop-accumulated) base when that is non-null,
refine again, and commit getSolid of the outcome into Shape; a null result is
the final failure, and a fusion that is not done fails after AddSubShape has
already been set. -/
def commitResult {S T : Type} (k : Kernel S T) (s : RevState S) (base result : S) :
    RevState S × ExecOutcome :=
  if k.isNull result then
    (s, .failure .noSolidProduced)
  else
    let result1 := k.refine result
    let s1 : RevState S := { s with AddSubShape := result1 }
    if k.isNull base then
      ({ s1 with Shape := k.getSolid result1 }, .success)
    else
      match k.fuse base result1 with
      | none => (s1, .failure .fusionFailed)
      | some fused => ({ s1 with Shape := k.getSolid (k.refine fused) }, .success)

/-- Lines 150-235: transformation into the inverted feature placement, the
axis-crossing safety check, the termination-mode branch with its revolve
loop, and the commit. s1 is the state after updateAxis, so the axis is
(s1.Base, s1.Axis). -/
def sweepStage {S T : Type} (k : Kernel S T) (s1 : RevState S)
    (sketchshape1 base0 : S) (angle1 : ℚ) : RevState S × ExecOutcome :=
  let pnt := k.transformPnt k.invObjLoc s1.Base
  let dir := k.transformDir k.invObjLoc s1.Axis
  let base := k.move base0 k.invObjLoc
  let sketchshape := k.move sketchshape1 k.invObjLoc
  if (k.faces sketchshape).any (fun f => k.checkLineCrossesFace (pnt, dir) f) then
    (s1, .failure .axisIntersectsSketch)
  else
    let supportface := k.move k.getSupportFace k.invObjLoc
    if isUpTo s1.Type' then
      if s1.Type' = .upToFace then
        match k.getFaceFromLinkSub with
        | .error e => (s1, .failure (.upToFaceLinkError e))
        | .ok f0 =>
          let upToFace0 := k.move f0 k.invObjLoc
          match k.getUpToFace upToFace0 base sketchshape s1.Type' dir with
          | .error e => (s1, .failure (.upToFaceError e))
          | .ok utf =>
            match revolveLoop
                (fun b f m => k.revolveUpTo b f supportface (pnt, dir) m utf)
                .couldNotRevolveUpToFace base 2 (k.faces sketchshape) with
            | .error e => (s1, .failure e)
            | .ok b2 => commitResult k s1 b2 b2
      else (s1, .failure .upToFirstLastNotSupported)
    else
      match revolveLoop
          (fun b f m => k.revolveAngle b f supportface (pnt, dir) m angle1)
          .couldNotRevolve base 2 (k.faces sketchshape) with
      | .error e => (s1, .failure e)
      | .ok b2 =>
        commitResult k s1 b2 (if (k.faces sketchshape).isEmpty then k.nullShape else b2)

/-- Lines 129-235: the body of the try block; fails when the verified face is
null, then pre-rotates the sketch (Midplane first, TwoAngles otherwise) and
runs the sweep stage with the adjusted angle. -/
def afterValidation {S T : Type} (k : Kernel S T) (s1 : RevState S)
    (sketchshape0 base0 : S) (angle angle2 : ℚ) : RevState S × ExecOutcome :=
  if k.isNull sketchshape0 then (s1, .failure .faceFromSketchFailed)
  else
    sweepStage k s1 (preRotatedSketch k s1 sketchshape0 angle2) base0
      (adjustedAngle s1 angle angle2)

/-- Lines 263-273: Revolution::updateAxis resolves ReferenceAxis through
getAxis and, on success, stores the result into Base and Axis. -/
def updateAxis {S T : Type} (k : Kernel S T) (s : RevState S) :
    Except String (RevState S) :=
  match k.getAxis with
  | .error e => .error e
  | .ok (b, d) => .ok { s with Base := b, Axis := d }

/-- Lines 81-250: Revolution::execute. Angle validation first (too large in
degrees, then too small in radians), then the verified face, the base shape
(a thrown getBaseShape falls back to a null shape), the axis update, and the
try block. -/
def execute {S T : Type} (k : Kernel S T) (s : RevState S) :
    RevState S × ExecOutcome :=
  if s.Angle > 360 then (s, .failure .angleTooLarge)
  else if toRadians s.Angle < precisionAngular then (s, .failure .angleTooSmall)
  else
    match k.getVerifiedFace with
    | .error e => (s, .failure (.profileError e))
    | .ok sketchshape0 =>
      let base0 := match k.getBaseShape with
        | .error _ => k.nullShape
        | .ok b => b
      match updateAxis k s with
      | .error e => (s, .failure (.axisError e))
      | .ok s1 =>
        afterValidation k s1 sketchshape0 base0 (signedAngle s) (toRadians s.Angle2)

/-- Lines 252-261: Revolution::suggestReversed; false (and no mutation) when
updateAxis throws, otherwise the sign test on getReversedAngle with the
freshly stored Base and Axis. -/
def suggestReversed {S T : Type} (k : Kernel S T) (s : RevState S) :
    Bool × RevState S :=
  match updateAxis k s with
  | .error _ => (false, s)
  | .ok s1 => (decide (k.getReversedAngle s1.Base s1.Axis < 0), s1)

/-- Result equivalence on the feature outputs: same committed Shape, same
committed AddSubShape, same outcome. -/
def sameResult {S : Type} (r r' : RevState S × ExecOutcome) : Prop :=
  r.1.Shape = r'.1.Shape ∧ r.1.AddSubShape = r'.1.AddSubShape ∧ r.2 = r'.2

/-- A concrete kernel over Nat shapes used to evaluate the model at concrete
inputs. -/
def K0 : Kernel Nat Unit where
  nullShape := 0
  isNull s := s == 0
  getVerifiedFace := .ok 1
  getBaseShape := .ok 2
  getAxis := .ok (⟨0, 0, 0⟩, ⟨0, 1, 0⟩)
  rotation _ _ _ := ()
  move s _ := s
  invObjLoc := ()
  transformPnt _ v := v
  transformDir _ v := v
  faces s := [s]
  checkLineCrossesFace _ _ := false
  getSupportFace := 3
  getFaceFromLinkSub := .ok 4
  getUpToFace _ _ _ _ _ := .ok 4
  revolveAngle _ _ _ _ _ _ := some 7
  revolveUpTo _ _ _ _ _ _ := some 8
  fuse _ _ := some 9
  refine s := s
  getSolid s := s
  getReversedAngle _ _ := -1

/-- A concrete feature state used to evaluate the model at concrete inputs. -/
def S0 : RevState Nat where
  Type' := .angle
  Base := ⟨0, 0, 0⟩
  Axis := ⟨0, 1, 0⟩
  Angle := 90
  Angle2 := 60
  Reversed := false
  Midplane := false
  Shape := 100
  AddSubShape := 100

/-! ### Failure analysis lemmas -/

/-- The revolve loop reports only its own revolve error. -/
theorem revolveLoop_error {S : Type} (step : S → S → Nat → Option S) (err : ExecError) :
    ∀ (fs : List S) (base : S) (mode : Nat) (e : ExecError),
      revolveLoop step err base mode fs = .error e → e = err := by
  intro fs
  induction fs with
  | nil =>
    intro base mode e h
    simp [revolveLoop] at h
  | cons f fs ih =>
    intro base mode e h
    simp only [revolveLoop] at h
    cases hs : step base f mode with
    | none =>
      rw [hs] at h
      injection h with h
      exact h.symm
    | some b =>
      rw [hs] at h
      exact ih _ _ _ h

/-- Commit-stage failures: the committed Shape is never touched, AddSubShape is
touched only by the fusion failure, and the only possible errors are the null
result and the fusion failure. -/
theorem commitResult_failure {S T : Type} (k : Kernel S T) (s : RevState S)
    (base result : S) (st : RevState S) (e : ExecError)
    (h : commitResult k s base result = (st, .failure e)) :
    st.Shape = s.Shape ∧ (st.AddSubShape = s.AddSubShape ∨ e = .fusionFailed) ∧
      (e = .noSolidProduced ∨ e = .fusionFailed) := by
  simp only [commitResult] at h
  split at h
  · simp only [Prod.mk.injEq] at h
    obtain ⟨h1, h2⟩ := h
    injection h2 with h2
    subst h1 h2
    simp
  · split at h
    · simp only [Prod.mk.injEq] at h
      exact absurd h.2 (by simp)
    · split at h
      · simp only [Prod.mk.injEq] at h
        obtain ⟨h1, h2⟩ := h
        injection h2 with h2
        subst h1 h2
        simp
      · simp only [Prod.mk.injEq] at h
        exact absurd h.2 (by simp)

/-- Sweep-stage failures: Shape untouched, AddSubShape touched only by the
fusion failure, and the error is never one of the two angle errors nor the
null-face error. -/
theorem sweepStage_failure {S T : Type} (k : Kernel S T) (s1 : RevState S)
    (sk b0 : S) (a : ℚ) (st : RevState S) (e : ExecError)
    (h : sweepStage k s1 sk b0 a = (st, .failure e)) :
    st.Shape = s1.Shape ∧ (st.AddSubShape = s1.AddSubShape ∨ e = .fusionFailed) ∧
      e ≠ .angleTooLarge ∧ e ≠ .angleTooSmall ∧ e ≠ .faceFromSketchFailed := by
  simp only [sweepStage] at h
  split at h
  · simp only [Prod.mk.injEq] at h
    obtain ⟨h1, h2⟩ := h
    injection h2 with h2
    subst h1 h2
    simp
  · split at h
    · split at h
      · split at h
        · simp only [Prod.mk.injEq] at h
          obtain ⟨h1, h2⟩ := h
          injection h2 with h2
          subst h1 h2
          simp
        · split at h
          · simp only [Prod.mk.injEq] at h
            obtain ⟨h1, h2⟩ := h
            injection h2 with h2
            subst h1 h2
            simp
          · split at h
            · rename_i e' hloop
              simp only [Prod.mk.injEq] at h
              obtain ⟨h1, h2⟩ := h
              injection h2 with h2
              subst h1 h2
              have := revolveLoop_error _ _ _ _ _ _ hloop
              subst this
              simp
            · obtain ⟨hSh, hAdd, hKind⟩ := commitResult_failure _ _ _ _ _ _ h
              refine ⟨hSh, hAdd, ?_⟩
              rcases hKind with rfl | rfl <;> simp
      · simp only [Prod.mk.injEq] at h
        obtain ⟨h1, h2⟩ := h
        injection h2 with h2
        subst h1 h2
        simp
    · split at h
      · rename_i e' hloop
        simp only [Prod.mk.injEq] at h
        obtain ⟨h1, h2⟩ := h
        injection h2 with h2
        subst h1 h2
        have := revolveLoop_error _ _ _ _ _ _ hloop
        subst this
        simp
      · obtain ⟨hSh, hAdd, hKind⟩ := commitResult_failure _ _ _ _ _ _ h
        refine ⟨hSh, hAdd, ?_⟩
        rcases hKind with rfl | rfl <;> simp

/-- Try-block failures: Shape untouched, AddSubShape touched only by the
fusion failure, and the error is never an angle error. -/
theorem afterValidation_failure {S T : Type} (k : Kernel S T) (s1 : RevState S)
    (sk b0 : S) (a a2 : ℚ) (st : RevState S) (e : ExecError)
    (h : afterValidation k s1 sk b0 a a2 = (st, .failure e)) :
    st.Shape = s1.Shape ∧ (st.AddSubShape = s1.AddSubShape ∨ e = .fusionFailed) ∧
      e ≠ .angleTooLarge ∧ e ≠ .angleTooSmall := by
  simp only [afterValidation] at h
  split at h
  · simp only [Prod.mk.injEq] at h
    obtain ⟨h1, h2⟩ := h
    injection h2 with h2
    subst h1 h2
    simp
  · obtain ⟨hSh, hAdd, hL, hS, _⟩ := sweepStage_failure _ _ _ _ _ _ _ h
    exact ⟨hSh, hAdd, hL, hS⟩

/-- Claim C1 (amended): every Failure outcome of execute() leaves the
committed Shape bit-identical to its pre-call value; AddSubShape is likewise
unchanged for every failure except the fusion failure, which is raised only
after AddSubShape has already been overwritten with the refined swept solid. -/
theorem execute_failure_preserves_committed {S T : Type} (k : Kernel S T)
    (s st : RevState S) (e : ExecError)
    (h : execute k s = (st, .failure e)) :
    st.Shape = s.Shape ∧ (st.AddSubShape = s.AddSubShape ∨ e = .fusionFailed) := by
  simp only [execute, updateAxis] at h
  split at h
  · simp only [Prod.mk.injEq] at h
    obtain ⟨h1, _⟩ := h
    subst h1
    simp
  · split at h
    · simp only [Prod.mk.injEq] at h
      obtain ⟨h1, _⟩ := h
      subst h1
      simp
    · cases hvf : k.getVerifiedFace with
      | error e' =>
        simp only [hvf, Prod.mk.injEq] at h
        obtain ⟨h1, _⟩ := h
        subst h1
        simp
      | ok sk =>
        simp only [hvf] at h
        cases hax : k.getAxis with
        | error e' =>
          simp only [hax, Prod.mk.injEq] at h
          obtain ⟨h1, _⟩ := h
          subst h1
          simp
        | ok bd =>
          obtain ⟨b0, d0⟩ := bd
          simp only [hax] at h
          obtain ⟨hSh, hAdd, _, _⟩ := afterValidation_failure _ _ _ _ _ _ _ _ h
          exact ⟨hSh, hAdd⟩

/-- Claim C1 witness: the amended theorem applied to a concrete fusion
failure. -/
theorem execute_failure_preserves_committed_witness :
    ({ S0 with AddSubShape := 7 } : RevState Nat).Shape = S0.Shape ∧
      (({ S0 with AddSubShape := 7 } : RevState Nat).AddSubShape = S0.AddSubShape ∨
        ExecError.fusionFailed = .fusionFailed) :=
  execute_failure_preserves_committed { K0 with fuse := fun _ _ => none } S0
    { S0 with AddSubShape := 7 } .fusionFailed (by decide)

/-- Claim C1 counterexample: with a kernel whose fusion reports failure,
execute() returns a Failure (the fusion failure) and yet AddSubShape has been
mutated away from its pre-call value — the swept solid was committed to
AddSubShape at line 220, before the fusion at lines 224-227 failed. -/
theorem execute_fusionFailed_mutates_addsubshape :
    (execute { K0 with fuse := fun _ _ => none } S0).2 = .failure .fusionFailed ∧
      (execute { K0 with fuse := fun _ _ => none } S0).1.AddSubShape ≠ S0.AddSubShape := by
  decide

/-- Claim C9: suggestReversed() returns false and leaves the state unmutated
when axis resolution fails; on success it updates Base and Axis and reports
exactly whether getReversedAngle on the resolved axis is negative. -/
theorem suggestReversed_spec {S T : Type} (k : Kernel S T) (s : RevState S) :
    (∀ e, k.getAxis = .error e → suggestReversed k s = (false, s)) ∧
    (∀ b0 d0, k.getAxis = .ok (b0, d0) →
      suggestReversed k s =
        (decide (k.getReversedAngle b0 d0 < 0), { s with Base := b0, Axis := d0 })) := by
  constructor
  · intro e he
    simp [suggestReversed, updateAxis, he]
  · intro b0 d0 hok
    simp [suggestReversed, updateAxis, hok]

/-- Claim C9 witness: the theorem applied to the concrete kernel, whose axis
resolution succeeds. -/
theorem suggestReversed_spec_witness :
    suggestReversed K0 S0 =
      (decide (K0.getReversedAngle ⟨0, 0, 0⟩ ⟨0, 1, 0⟩ < 0),
        { S0 with Base := ⟨0, 0, 0⟩, Axis := ⟨0, 1, 0⟩ }) :=
  (suggestReversed_spec K0 S0).2 ⟨0, 0, 0⟩ ⟨0, 1, 0⟩ rfl

/-- Claim C3 (amended): with Type = UpToFirst or UpToLast, execute() fails
with the unsupported-termination error provided the checks that precede that
branch pass (angle in range, profile face obtained and non-null, axis
resolved, axis not crossing any profile face); when an earlier check fails,
that earlier error is reported instead (see the counterexample). -/
theorem upToFirstLast_unsupported {S T : Type} (k : Kernel S T) (s : RevState S)
    (f : S) (b0 d0 : Vec3)
    (hT : s.Type' = .upToFirst ∨ s.Type' = .upToLast)
    (hA1 : ¬ s.Angle > 360)
    (hA2 : ¬ toRadians s.Angle < precisionAngular)
    (hVF : k.getVerifiedFace = .ok f)
    (hAx : k.getAxis = .ok (b0, d0))
    (hN : k.isNull f = false)
    (hX : ∀ l fc, k.checkLineCrossesFace l fc = false) :
    (execute k s).2 = .failure .upToFirstLastNotSupported := by
  rcases hT with hT | hT <;>
    simp [execute, updateAxis, afterValidation, sweepStage, preRotatedSketch, adjustedAngle,
      isUpTo, hVF, hAx, hN, hX, hA1, hA2, hT]

/-- Claim C3 witness: the amended theorem applied to the concrete kernel with
Type = UpToFirst and all earlier checks passing. -/
theorem upToFirstLast_unsupported_witness :
    (execute K0 { S0 with Type' := .upToFirst }).2 = .failure .upToFirstLastNotSupported :=
  upToFirstLast_unsupported K0 { S0 with Type' := .upToFirst } 1 ⟨0, 0, 0⟩ ⟨0, 1, 0⟩
    (Or.inl rfl) (by decide) (by decide) rfl rfl rfl (fun _ _ => rfl)

/-- Claim C3 counterexample: Type = UpToFirst with Angle = 361 fails with the
angle-too-large error, not the unsupported-termination error — the angle
validation at lines 85-91 precedes the termination-mode branch at line 169,
so the failure is not independent of the other inputs. -/
theorem upToFirst_angle_error_first :
    (execute K0 { S0 with Type' := .upToFirst, Angle := 361 }).2 = .failure .angleTooLarge ∧
      (execute K0 { S0 with Type' := .upToFirst, Angle := 361 }).2 ≠
        .failure .upToFirstLastNotSupported := by
  decide

/-- Auxiliary for claim C4: when both angle validations pass, no later
failure can be one of the two angle errors. -/
theorem execute_no_angle_error_late {S T : Type} (k : Kernel S T) (s : RevState S)
    (h1 : ¬ s.Angle > 360) (h2 : ¬ toRadians s.Angle < precisionAngular) :
    (execute k s).2 ≠ .failure .angleTooLarge ∧
      (execute k s).2 ≠ .failure .angleTooSmall := by
  rcases hE : execute k s with ⟨st, o⟩
  cases o with
  | success => simp
  | failure e =>
    simp only [execute, updateAxis, if_neg h1, if_neg h2] at hE
    cases hvf : k.getVerifiedFace with
    | error e' =>
      simp only [hvf, Prod.mk.injEq] at hE
      obtain ⟨_, h3⟩ := hE
      injection h3 with h3
      subst h3
      simp
    | ok sk =>
      simp only [hvf] at hE
      cases hax : k.getAxis with
      | error e' =>
        simp only [hax, Prod.mk.injEq] at hE
        obtain ⟨_, h3⟩ := hE
        injection h3 with h3
        subst h3
        simp
      | ok bd =>
        obtain ⟨b0, d0⟩ := bd
        simp only [hax] at hE
        obtain ⟨_, _, hL, hS⟩ := afterValidation_failure _ _ _ _ _ _ _ _ hE
        simp only [ne_eq, ExecOutcome.failure.injEq]
        exact ⟨fun c => hL c, fun c => hS c⟩

/-- Claim C4: execute() fails with an angle-range error exactly when the
Angle exceeds 360 degrees or its radian value is below the angular precision
epsilon; the check is first (the result then does not depend on any kernel
operation); at the boundaries, Angle = 0 and Angle = 360.0001 fail while
Angle = 360 passes the angle validation. -/
theorem angle_validation_exact {S T : Type} (k : Kernel S T) (s : RevState S) :
    (((execute k s).2 = .failure .angleTooLarge ∨
        (execute k s).2 = .failure .angleTooSmall) ↔
      (s.Angle > 360 ∨ toRadians s.Angle < precisionAngular)) ∧
    (s.Angle > 360 → execute k s = (s, .failure .angleTooLarge)) ∧
    (¬ s.Angle > 360 → toRadians s.Angle < precisionAngular →
      execute k s = (s, .failure .angleTooSmall)) ∧
    (s.Angle = 0 → execute k s = (s, .failure .angleTooSmall)) ∧
    (s.Angle = 360.0001 → execute k s = (s, .failure .angleTooLarge)) ∧
    (s.Angle = 360 → ¬ ((execute k s).2 = .failure .angleTooLarge ∨
      (execute k s).2 = .failure .angleTooSmall)) := by
  have hbig : s.Angle > 360 → execute k s = (s, .failure .angleTooLarge) := by
    intro h
    simp [execute, h]
  have hsmall : ¬ s.Angle > 360 → toRadians s.Angle < precisionAngular →
      execute k s = (s, .failure .angleTooSmall) := by
    intro h1 h2
    simp [execute, h1, h2]
  refine ⟨⟨?_, ?_⟩, hbig, hsmall, ?_, ?_, ?_⟩
  · intro hor
    by_cases c1 : s.Angle > 360
    · exact Or.inl c1
    by_cases c2 : toRadians s.Angle < precisionAngular
    · exact Or.inr c2
    · obtain ⟨hL, hS⟩ := execute_no_angle_error_late k s c1 c2
      rcases hor with hor | hor
      · exact absurd hor hL
      · exact absurd hor hS
  · intro hor
    by_cases c1 : s.Angle > 360
    · rw [hbig c1]
      simp
    · rcases hor with hor | hor
      · exact absurd hor c1
      · rw [hsmall c1 hor]
        simp
  · intro h
    refine hsmall ?_ ?_ <;> rw [h] <;> decide
  · intro h
    refine hbig ?_
    rw [h]
    decide
  · intro h
    obtain ⟨hL, hS⟩ := execute_no_angle_error_late k s (by rw [h]; decide) (by rw [h]; decide)
    rintro (c | c)
    · exact hL c
    · exact hS c

/-- Claim C4 witness: the boundary conjunct applied at Angle = 0 with the
concrete kernel. -/
theorem angle_validation_exact_witness :
    execute K0 { S0 with Angle := 0 } = ({ S0 with Angle := 0 }, .failure .angleTooSmall) :=
  (angle_validation_exact K0 { S0 with Angle := 0 }).2.2.2.1 rfl

/-! ### Congruence lemmas: which fields each stage actually reads -/

/-- The commit stage treats the incoming state only as a record to patch:
with equal committed fields, the results are equivalent. -/
theorem commitResult_congr {S T : Type} (k : Kernel S T) (s s' : RevState S)
    (base result : S) (hSh : s.Shape = s'.Shape) (hAS : s.AddSubShape = s'.AddSubShape) :
    sameResult (commitResult k s base result) (commitResult k s' base result) := by
  unfold commitResult
  by_cases h1 : k.isNull result = true
  · simp only [if_pos h1]
    exact ⟨hSh, hAS, rfl⟩
  · simp only [if_neg h1]
    by_cases h2 : k.isNull base = true
    · simp only [if_pos h2]
      exact ⟨rfl, rfl, rfl⟩
    · simp only [if_neg h2]
      cases hf : k.fuse base (k.refine result) with
      | none =>
        simp only [hf]
        exact ⟨hSh, rfl, rfl⟩
      | some fused =>
        simp only [hf]
        exact ⟨rfl, rfl, rfl⟩

/-- The commit outcome and, on success, the freshly written Shape and
AddSubShape do not depend on the incoming state at all. -/
theorem commitResult_success_congr {S T : Type} (k : Kernel S T) (s s' : RevState S)
    (base result : S) :
    (commitResult k s base result).2 = (commitResult k s' base result).2 ∧
    ((commitResult k s base result).2 = .success →
      (commitResult k s base result).1.Shape = (commitResult k s' base result).1.Shape ∧
      (commitResult k s base result).1.AddSubShape =
        (commitResult k s' base result).1.AddSubShape) := by
  unfold commitResult
  by_cases h1 : k.isNull result = true
  · simp [h1]
  · by_cases h2 : k.isNull base = true
    · simp [h1, h2]
    · cases hf : k.fuse base (k.refine result) <;> simp [h1, h2, hf]

/-- The commit stage never writes any field other than Shape and AddSubShape. -/
theorem commitResult_inputs {S T : Type} (k : Kernel S T) (s : RevState S) (b r : S) :
    (commitResult k s b r).1.Type' = s.Type' ∧ (commitResult k s b r).1.Base = s.Base ∧
    (commitResult k s b r).1.Axis = s.Axis ∧ (commitResult k s b r).1.Angle = s.Angle ∧
    (commitResult k s b r).1.Angle2 = s.Angle2 ∧
    (commitResult k s b r).1.Reversed = s.Reversed ∧
    (commitResult k s b r).1.Midplane = s.Midplane := by
  unfold commitResult
  by_cases h1 : k.isNull r = true
  · simp [h1]
  · by_cases h2 : k.isNull b = true
    · simp [h1, h2]
    · cases hf : k.fuse b (k.refine r) <;> simp [h1, h2, hf]

/-- The sweep stage reads only Type', Base and Axis from the state (besides
patching it); two states agreeing there — or at least both taking the
angle-bounded branch — give equivalent results when their committed fields
agree. -/
theorem sweepStage_state_congr {S T : Type} (k : Kernel S T) (s1 s1' : RevState S)
    (sk b0 : S) (a : ℚ)
    (hTy : s1.Type' = s1'.Type' ∨ (¬ isUpTo s1.Type' ∧ ¬ isUpTo s1'.Type'))
    (hB : s1.Base = s1'.Base) (hAx : s1.Axis = s1'.Axis)
    (hSh : s1.Shape = s1'.Shape) (hAS : s1.AddSubShape = s1'.AddSubShape) :
    sameResult (sweepStage k s1 sk b0 a) (sweepStage k s1' sk b0 a) := by
  rcases hTy with hTy | ⟨hU, hU'⟩
  · simp only [sweepStage, hB, hAx, hTy]
    split
    · exact ⟨hSh, hAS, rfl⟩
    · split
      · split
        · split
          · exact ⟨hSh, hAS, rfl⟩
          · split
            · exact ⟨hSh, hAS, rfl⟩
            · split
              · exact ⟨hSh, hAS, rfl⟩
              · exact commitResult_congr _ _ _ _ _ hSh hAS
        · exact ⟨hSh, hAS, rfl⟩
      · split
        · exact ⟨hSh, hAS, rfl⟩
        · exact commitResult_congr _ _ _ _ _ hSh hAS
  · simp only [sweepStage, hB, hAx, if_neg hU, if_neg hU']
    split
    · exact ⟨hSh, hAS, rfl⟩
    · split
      · exact ⟨hSh, hAS, rfl⟩
      · exact commitResult_congr _ _ _ _ _ hSh hAS

/-- Outcome (and, on success, the written Shape and AddSubShape) of the sweep
stage depend on the state only through Type', Base and Axis. -/
theorem sweepStage_success_congr {S T : Type} (k : Kernel S T) (s1 s1' : RevState S)
    (sk b0 : S) (a : ℚ)
    (hTy : s1.Type' = s1'.Type')
    (hB : s1.Base = s1'.Base) (hAx : s1.Axis = s1'.Axis) :
    (sweepStage k s1 sk b0 a).2 = (sweepStage k s1' sk b0 a).2 ∧
    ((sweepStage k s1 sk b0 a).2 = .success →
      (sweepStage k s1 sk b0 a).1.Shape = (sweepStage k s1' sk b0 a).1.Shape ∧
      (sweepStage k s1 sk b0 a).1.AddSubShape = (sweepStage k s1' sk b0 a).1.AddSubShape) := by
  simp only [sweepStage, hB, hAx, hTy]
  split
  · simp
  · split
    · split
      · split
        · simp
        · split
          · simp
          · split
            · simp
            · exact commitResult_success_congr _ _ _ _ _
      · simp
    · split
      · simp
      · exact commitResult_success_congr _ _ _ _ _

/-- The sweep stage never writes any field other than Shape and AddSubShape. -/
theorem sweepStage_inputs {S T : Type} (k : Kernel S T) (s1 : RevState S)
    (sk b0 : S) (a : ℚ) :
    (sweepStage k s1 sk b0 a).1.Type' = s1.Type' ∧
    (sweepStage k s1 sk b0 a).1.Base = s1.Base ∧
    (sweepStage k s1 sk b0 a).1.Axis = s1.Axis ∧
    (sweepStage k s1 sk b0 a).1.Angle = s1.Angle ∧
    (sweepStage k s1 sk b0 a).1.Angle2 = s1.Angle2 ∧
    (sweepStage k s1 sk b0 a).1.Reversed = s1.Reversed ∧
    (sweepStage k s1 sk b0 a).1.Midplane = s1.Midplane := by
  simp only [sweepStage]
  split
  · simp
  · split
    · split
      · split
        · simp
        · split
          · simp
          · split
            · simp
            · exact commitResult_inputs _ _ _ _
      · simp
    · split
      · simp
      · exact commitResult_inputs _ _ _ _

/-- Unfolding of execute() on the path where both angle validations pass, the
profile face is obtained and the axis resolves. -/
theorem execute_ok {S T : Type} (k : Kernel S T) (s : RevState S) (f : S) (b0 d0 : Vec3)
    (hA1 : ¬ s.Angle > 360) (hA2 : ¬ toRadians s.Angle < precisionAngular)
    (hVF : k.getVerifiedFace = .ok f) (hAx : k.getAxis = .ok (b0, d0)) :
    execute k s = afterValidation k { s with Base := b0, Axis := d0 } f
      (match k.getBaseShape with | .error _ => k.nullShape | .ok b => b)
      (signedAngle s) (toRadians s.Angle2) := by
  simp [execute, updateAxis, hA1, hA2, hVF, hAx]

/-- Unfolding of the try block when the verified face is not null. -/
theorem afterValidation_notNull {S T : Type} (k : Kernel S T) (s1 : RevState S)
    (sk b0 : S) (a a2 : ℚ) (hN : k.isNull sk = false) :
    afterValidation k s1 sk b0 a a2 =
      sweepStage k s1 (preRotatedSketch k s1 sk a2) b0 (adjustedAngle s1 a a2) := by
  simp [afterValidation, hN]

/-- execute() never writes any of the five user inputs. -/
theorem execute_preserves_inputs {S T : Type} (k : Kernel S T) (s : RevState S) :
    (execute k s).1.Type' = s.Type' ∧ (execute k s).1.Angle = s.Angle ∧
    (execute k s).1.Angle2 = s.Angle2 ∧ (execute k s).1.Reversed = s.Reversed ∧
    (execute k s).1.Midplane = s.Midplane := by
  by_cases hA1 : s.Angle > 360
  · simp [execute, hA1]
  by_cases hA2 : toRadians s.Angle < precisionAngular
  · simp [execute, hA1, hA2]
  cases hvf : k.getVerifiedFace with
  | error e => simp [execute, hA1, hA2, hvf]
  | ok f =>
    cases hax : k.getAxis with
    | error e => simp [execute, updateAxis, hA1, hA2, hvf, hax]
    | ok bd =>
      obtain ⟨b0, d0⟩ := bd
      rw [execute_ok k s f b0 d0 hA1 hA2 hvf hax]
      by_cases hN : k.isNull f = true
      · simp [afterValidation, hN]
      · rw [afterValidation_notNull _ _ _ _ _ _ (by simpa using hN)]
        obtain ⟨h1, _, _, h4, h5, h6, h7⟩ := sweepStage_inputs k
          { s with Base := b0, Axis := d0 }
          (preRotatedSketch k { s with Base := b0, Axis := d0 } f (toRadians s.Angle2))
          (match k.getBaseShape with | .error _ => k.nullShape | .ok b => b)
          (adjustedAngle { s with Base := b0, Axis := d0 } (signedAngle s) (toRadians s.Angle2))
        exact ⟨h1, h4, h5, h6, h7⟩

/-- execute() depends on the state only through the five user inputs: its
outcome is a function of them (and the kernel), and so are the freshly
committed Shape and AddSubShape on success. -/
theorem execute_inputs_congr {S T : Type} (k : Kernel S T) (s s' : RevState S)
    (hT : s.Type' = s'.Type') (hA : s.Angle = s'.Angle) (hA2 : s.Angle2 = s'.Angle2)
    (hR : s.Reversed = s'.Reversed) (hM : s.Midplane = s'.Midplane) :
    (execute k s).2 = (execute k s').2 ∧
    ((execute k s).2 = .success →
      (execute k s).1.Shape = (execute k s').1.Shape ∧
      (execute k s).1.AddSubShape = (execute k s').1.AddSubShape) := by
  by_cases hA1 : s.Angle > 360
  · have hA1' : s'.Angle > 360 := hA ▸ hA1
    simp [execute, hA1, hA1']
  have hA1' : ¬ s'.Angle > 360 := hA ▸ hA1
  by_cases hA2r : toRadians s.Angle < precisionAngular
  · have hA2r' : toRadians s'.Angle < precisionAngular := hA ▸ hA2r
    simp [execute, hA1, hA1', hA2r, hA2r']
  have hA2r' : ¬ toRadians s'.Angle < precisionAngular := hA ▸ hA2r
  cases hvf : k.getVerifiedFace with
  | error e => simp [execute, hA1, hA1', hA2r, hA2r', hvf]
  | ok f =>
    cases hax : k.getAxis with
    | error e => simp [execute, updateAxis, hA1, hA1', hA2r, hA2r', hvf, hax]
    | ok bd =>
      obtain ⟨b0, d0⟩ := bd
      rw [execute_ok k s f b0 d0 hA1 hA2r hvf hax,
        execute_ok k s' f b0 d0 hA1' hA2r' hvf hax]
      by_cases hN : k.isNull f = true
      · simp [afterValidation, hN]
      · rw [afterValidation_notNull _ _ _ _ _ _ (by simpa using hN),
          afterValidation_notNull _ _ _ _ _ _ (by simpa using hN)]
        have hpre : preRotatedSketch k { s with Base := b0, Axis := d0 } f (toRadians s.Angle2)
            = preRotatedSketch k { s' with Base := b0, Axis := d0 } f (toRadians s'.Angle2) := by
          simp only [preRotatedSketch]
          simp only [show ({ s with Base := b0, Axis := d0 } : RevState S).Midplane
              = s.Midplane from rfl,
            show ({ s' with Base := b0, Axis := d0 } : RevState S).Midplane
              = s'.Midplane from rfl,
            show ({ s with Base := b0, Axis := d0 } : RevState S).Type' = s.Type' from rfl,
            show ({ s' with Base := b0, Axis := d0 } : RevState S).Type' = s'.Type' from rfl,
            hM, hT, hA, hA2]
        have hadj : adjustedAngle { s with Base := b0, Axis := d0 } (signedAngle s)
              (toRadians s.Angle2)
            = adjustedAngle { s' with Base := b0, Axis := d0 } (signedAngle s')
              (toRadians s'.Angle2) := by
          simp only [adjustedAngle, signedAngle]
          simp only [show ({ s with Base := b0, Axis := d0 } : RevState S).Midplane
              = s.Midplane from rfl,
            show ({ s' with Base := b0, Axis := d0 } : RevState S).Midplane
              = s'.Midplane from rfl,
            show ({ s with Base := b0, Axis := d0 } : RevState S).Type' = s.Type' from rfl,
            show ({ s' with Base := b0, Axis := d0 } : RevState S).Type' = s'.Type' from rfl,
            hM, hT, hA, hA2, hR]
        rw [hpre, hadj]
        exact sweepStage_success_congr k _ _ _ _ _ hT rfl rfl

/-- Claim C8: axis resolution and recomputation are deterministic. A second
updateAxis with unchanged inputs returns the state it was given (bit-identical
Base and Axis), and a second execute() after a successful one succeeds again
with bit-identical committed Shape (and AddSubShape). -/
theorem determinism_idempotence {S T : Type} (k : Kernel S T) :
    (∀ s s₁ : RevState S, updateAxis k s = .ok s₁ → updateAxis k s₁ = .ok s₁) ∧
    (∀ s : RevState S, (execute k s).2 = .success →
      (execute k (execute k s).1).2 = .success ∧
      (execute k (execute k s).1).1.Shape = (execute k s).1.Shape ∧
      (execute k (execute k s).1).1.AddSubShape = (execute k s).1.AddSubShape) := by
  constructor
  · intro s s₁ h
    unfold updateAxis at h ⊢
    cases hax : k.getAxis with
    | error e =>
      rw [hax] at h
      exact absurd h (by simp)
    | ok bd =>
      obtain ⟨b0, d0⟩ := bd
      rw [hax] at h
      dsimp only at h
      injection h with h
      subst h
      rfl
  · intro s hs
    obtain ⟨h1, h2, h3, h4, h5⟩ := execute_preserves_inputs k s
    obtain ⟨hout, hproj⟩ := execute_inputs_congr k (execute k s).1 s h1 h2 h3 h4 h5
    exact ⟨hout.trans hs, (hproj (hout.trans hs)).1, (hproj (hout.trans hs)).2⟩

/-- Claim C8 witness: the determinism theorem applied to the concrete kernel
and state, whose first recomputation succeeds. -/
theorem determinism_idempotence_witness :
    (execute K0 (execute K0 S0).1).2 = .success ∧
    (execute K0 (execute K0 S0).1).1.Shape = (execute K0 S0).1.Shape ∧
    (execute K0 (execute K0 S0).1).1.AddSubShape = (execute K0 S0).1.AddSubShape :=
  (determinism_idempotence K0).2 S0 (by decide)

/-- Claim C10: when Midplane is set, the Midplane branch takes precedence over
the TwoAngles branch: the pre-rotation is by minus half the (unreversed)
Angle, the sweep angle is not enlarged by Angle2, and the value of Angle2 has
no effect on the outcome, committed Shape or committed AddSubShape. -/
theorem midplane_overrides_twoAngles {S T : Type} (k : Kernel S T) (s : RevState S)
    (hM : s.Midplane = true) :
    (∀ sk a2, preRotatedSketch k s sk a2
        = k.move sk (k.rotation s.Base s.Axis (-(toRadians s.Angle) / 2))) ∧
    (∀ a a2, adjustedAngle s a a2 = a) ∧
    (∀ q, sameResult (execute k { s with Angle2 := q }) (execute k s)) := by
  refine ⟨?_, ?_, ?_⟩
  · intro sk a2
    simp [preRotatedSketch, hM]
  · intro a a2
    simp [adjustedAngle, hM]
  · intro q
    by_cases hA1 : s.Angle > 360
    · simp [execute, hA1, sameResult]
    by_cases hA2 : toRadians s.Angle < precisionAngular
    · simp [execute, hA1, hA2, sameResult]
    cases hvf : k.getVerifiedFace with
    | error e => simp [execute, hA1, hA2, hvf, sameResult]
    | ok f =>
      cases hax : k.getAxis with
      | error e => simp [execute, updateAxis, hA1, hA2, hvf, hax, sameResult]
      | ok bd =>
        obtain ⟨b0, d0⟩ := bd
        rw [execute_ok k { s with Angle2 := q } f b0 d0 hA1 hA2 hvf hax,
          execute_ok k s f b0 d0 hA1 hA2 hvf hax]
        by_cases hN : k.isNull f = true
        · simp [afterValidation, hN, sameResult]
        · rw [afterValidation_notNull _ _ _ _ _ _ (by simpa using hN),
            afterValidation_notNull _ _ _ _ _ _ (by simpa using hN)]
          have hpre : preRotatedSketch k { ({ s with Angle2 := q }) with Base := b0, Axis := d0 }
                f (toRadians ({ s with Angle2 := q } : RevState S).Angle2)
              = preRotatedSketch k { s with Base := b0, Axis := d0 } f (toRadians s.Angle2) := by
            simp [preRotatedSketch, hM]
          have hadj : adjustedAngle { ({ s with Angle2 := q }) with Base := b0, Axis := d0 }
                (signedAngle { s with Angle2 := q })
                (toRadians ({ s with Angle2 := q } : RevState S).Angle2)
              = adjustedAngle { s with Base := b0, Axis := d0 } (signedAngle s)
                (toRadians s.Angle2) := by
            simp [adjustedAngle, signedAngle, hM]
          rw [hpre, hadj]
          exact sweepStage_state_congr k _ _ _ _ _ (Or.inl rfl) rfl rfl rfl rfl

/-- Claim C10 witness: Angle2 = 7 versus Angle2 = 60 under Midplane gives the
same result on the concrete kernel. -/
theorem midplane_overrides_twoAngles_witness :
    sameResult (execute K0 { ({ S0 with Midplane := true, Type' := .twoAngles }) with Angle2 := 7 })
      (execute K0 { S0 with Midplane := true, Type' := .twoAngles }) :=
  (midplane_overrides_twoAngles K0 { S0 with Midplane := true, Type' := .twoAngles } rfl).2.2 7

/-- Changing only the fusion operation never changes the AddSubShape written
by the commit stage. -/
theorem commitResult_fuse_addsub {S T : Type} (k : Kernel S T) (fu : S → S → Option S)
    (s : RevState S) (base result : S) :
    (commitResult { k with fuse := fu } s base result).1.AddSubShape =
      (commitResult k s base result).1.AddSubShape := by
  unfold commitResult
  by_cases h1 : k.isNull result = true
  · simp [h1]
  · by_cases h2 : k.isNull base = true
    · simp [h1, h2]
    · cases hf : fu base (k.refine result) <;> cases hk : k.fuse base (k.refine result) <;>
        simp [h1, h2, hf, hk]

/-- Changing only the fusion operation never changes the AddSubShape side of
the sweep stage. -/
theorem sweepStage_fuse_addsub {S T : Type} (k : Kernel S T) (fu : S → S → Option S)
    (s1 : RevState S) (sk b0 : S) (a : ℚ) :
    (sweepStage { k with fuse := fu } s1 sk b0 a).1.AddSubShape =
      (sweepStage k s1 sk b0 a).1.AddSubShape := by
  simp only [sweepStage]
  split
  · rfl
  · split
    · split
      · split
        · rfl
        · split
          · rfl
          · split
            · rfl
            · exact commitResult_fuse_addsub _ _ _ _ _
      · rfl
    · split
      · rfl
      · exact commitResult_fuse_addsub _ _ _ _ _

/-- Claim C2: the committed AddSubShape is the refined swept solid stored
before any fusion with the base: the AddSubShape side of execute() does not
depend on the fusion operation at all, and at the commit stage the written
AddSubShape equals the refined pre-fusion result for every base whatsoever. -/
theorem addSubShape_prefusion {S T : Type} (k : Kernel S T) (fu : S → S → Option S)
    (s : RevState S) :
    ((execute { k with fuse := fu } s).1.AddSubShape = (execute k s).1.AddSubShape) ∧
    (∀ base result, k.isNull result = false →
      (commitResult k s base result).1.AddSubShape = k.refine result) := by
  constructor
  · set k' : Kernel S T := { k with fuse := fu } with hk'
    by_cases hA1 : s.Angle > 360
    · simp [execute, hA1]
    by_cases hA2 : toRadians s.Angle < precisionAngular
    · simp [execute, hA1, hA2]
    cases hvf : k.getVerifiedFace with
    | error e => simp [execute, hA1, hA2, hvf, hk']
    | ok f =>
      cases hax : k.getAxis with
      | error e => simp [execute, updateAxis, hA1, hA2, hvf, hax, hk']
      | ok bd =>
        obtain ⟨b0, d0⟩ := bd
        rw [execute_ok k' s f b0 d0 hA1 hA2 (by rw [hk']; exact hvf) (by rw [hk']; exact hax),
          execute_ok k s f b0 d0 hA1 hA2 hvf hax]
        by_cases hN : k.isNull f = true
        · simp [afterValidation, hN, hk']
        · rw [afterValidation_notNull k' _ _ _ _ _ (by rw [hk']; simpa using hN),
            afterValidation_notNull k _ _ _ _ _ (by simpa using hN), hk']
          have e1 : preRotatedSketch { k with fuse := fu } { s with Base := b0, Axis := d0 }
              f (toRadians s.Angle2)
              = preRotatedSketch k { s with Base := b0, Axis := d0 } f (toRadians s.Angle2) := rfl
          have e2 : (match ({ k with fuse := fu } : Kernel S T).getBaseShape with
              | .error _ => ({ k with fuse := fu } : Kernel S T).nullShape | .ok b => b)
              = (match k.getBaseShape with | .error _ => k.nullShape | .ok b => b) := rfl
          rw [e1, e2]
          exact sweepStage_fuse_addsub _ _ _ _ _ _
  · intro base result hres
    unfold commitResult
    simp only [hres, Bool.false_eq_true, if_false]
    by_cases h2 : k.isNull base = true
    · simp [h2]
    · cases hf : k.fuse base (k.refine result) <;> simp [h2, hf]

/-- Claim C2 witness: the commit-stage conjunct applied to the concrete
kernel with a non-null result. -/
theorem addSubShape_prefusion_witness :
    (commitResult K0 S0 2 7).1.AddSubShape = K0.refine 7 :=
  (addSubShape_prefusion K0 (fun _ _ => some 5) S0).2 2 7 rfl

/-- Claim C7: when the revolve axis, as an infinite line in the inverted
placement frame, crosses any face of the (pre-rotated, transformed) profile,
execute() fails with the axis-intersects error — and it does so for every
revolve operation whatsoever, i.e. the kernel revolve is never consulted. -/
theorem axis_cross_check_blocks_revolve {S T : Type} (k : Kernel S T)
    (s : RevState S) (f : S) (b0 d0 : Vec3)
    (hA1 : ¬ s.Angle > 360) (hA2 : ¬ toRadians s.Angle < precisionAngular)
    (hVF : k.getVerifiedFace = .ok f) (hAx : k.getAxis = .ok (b0, d0))
    (hN : k.isNull f = false)
    (hX : (k.faces (k.move (preRotatedSketch k { s with Base := b0, Axis := d0 } f
        (toRadians s.Angle2)) k.invObjLoc)).any
      (fun fc => k.checkLineCrossesFace
        (k.transformPnt k.invObjLoc b0, k.transformDir k.invObjLoc d0) fc) = true) :
    ∀ ra ru, execute { k with revolveAngle := ra, revolveUpTo := ru } s =
      ({ s with Base := b0, Axis := d0 }, .failure .axisIntersectsSketch) := by
  intro ra ru
  rw [execute_ok { k with revolveAngle := ra, revolveUpTo := ru } s f b0 d0 hA1 hA2 hVF hAx,
    afterValidation_notNull _ _ _ _ _ _ (by simpa using hN)]
  simp only [sweepStage]
  have hpre : preRotatedSketch { k with revolveAngle := ra, revolveUpTo := ru }
      { s with Base := b0, Axis := d0 } f (toRadians s.Angle2)
      = preRotatedSketch k { s with Base := b0, Axis := d0 } f (toRadians s.Angle2) := rfl
  rw [hpre]
  simp only [show ({ s with Base := b0, Axis := d0 } : RevState S).Base = b0 from rfl,
    show ({ s with Base := b0, Axis := d0 } : RevState S).Axis = d0 from rfl, hX]
  simp

/-- The concrete kernel whose crossing test always reports a crossing. -/
def Kcross : Kernel Nat Unit := { K0 with checkLineCrossesFace := fun _ _ => true }

/-- Claim C7 witness: the axis-crossing theorem applied to the concrete
kernel whose crossing test fires, with both revolve operations replaced by
ones that always fail — the outcome is still the axis-intersects error. -/
theorem axis_cross_check_blocks_revolve_witness :
    execute { Kcross with
        revolveAngle := (fun _ _ _ _ _ _ => none),
        revolveUpTo := (fun _ _ _ _ _ _ => none) } S0 =
      ({ S0 with Base := ⟨0, 0, 0⟩, Axis := ⟨0, 1, 0⟩ }, .failure .axisIntersectsSketch) :=
  axis_cross_check_blocks_revolve Kcross S0 1 ⟨0, 0, 0⟩ ⟨0, 1, 0⟩
    (by decide) (by decide) rfl rfl rfl (by decide)
    (fun _ _ _ _ _ _ => none) (fun _ _ _ _ _ _ => none)

/-- Claim C5: the sweep angle is radians(Angle) with its sign flipped exactly
when Reversed is set and Midplane is not; for Type = Angle flipping Reversed
hands the kernel revolve the negated angle and nothing else changes; when
Midplane is set Reversed has no effect on the result at all, and the profile
is instead pre-rotated about the axis by minus half the angle — the Midplane
branch being checked before the Type-based branches (its rotation applies for
every Type). -/
theorem angle_sign_midplane {S T : Type} (k : Kernel S T) (s : RevState S) :
    (signedAngle s = if s.Reversed = true ∧ s.Midplane = false
        then -(toRadians s.Angle) else toRadians s.Angle) ∧
    (s.Type' = .angle → s.Midplane = false →
      sameResult (execute k { s with Reversed := true })
        (execute { k with revolveAngle :=
            (fun b f sf ax m a => k.revolveAngle b f sf ax m (-a)) }
          { s with Reversed := false })) ∧
    (s.Midplane = true → ∀ b b' : Bool,
      sameResult (execute k { s with Reversed := b })
        (execute k { s with Reversed := b' })) ∧
    (s.Midplane = true → ∀ sk a2,
      preRotatedSketch k s sk a2
        = k.move sk (k.rotation s.Base s.Axis (-(toRadians s.Angle) / 2))) := by
  refine ⟨?_, ?_, ?_, ?_⟩
  · cases hr : s.Reversed <;> cases hm : s.Midplane <;> simp [signedAngle, hr, hm]
  · intro hT hM
    set kneg : Kernel S T := { k with revolveAngle :=
      (fun b f sf ax m a => k.revolveAngle b f sf ax m (-a)) } with hkn
    by_cases hA1 : s.Angle > 360
    · simp [execute, hA1, sameResult]
    by_cases hA2 : toRadians s.Angle < precisionAngular
    · simp [execute, hA1, hA2, sameResult]
    cases hvf : k.getVerifiedFace with
    | error e => simp [execute, hA1, hA2, hvf, hkn, sameResult]
    | ok f =>
      cases hax : k.getAxis with
      | error e => simp [execute, updateAxis, hA1, hA2, hvf, hax, hkn, sameResult]
      | ok bd =>
        obtain ⟨b0, d0⟩ := bd
        rw [execute_ok k { s with Reversed := true } f b0 d0 hA1 hA2 hvf hax,
          execute_ok kneg { s with Reversed := false } f b0 d0 hA1 hA2
            (by rw [hkn]; exact hvf) (by rw [hkn]; exact hax)]
        by_cases hN : k.isNull f = true
        · simp [afterValidation, hN, hkn, sameResult]
        · rw [afterValidation_notNull k _ _ _ _ _ (by simpa using hN),
            afterValidation_notNull kneg _ _ _ _ _ (by rw [hkn]; simpa using hN)]
          have e1 : preRotatedSketch k
              { ({ s with Reversed := true }) with Base := b0, Axis := d0 } f
              (toRadians ({ s with Reversed := true } : RevState S).Angle2) = f := by
            simp [preRotatedSketch, hM, hT]
          have e2 : preRotatedSketch kneg
              { ({ s with Reversed := false }) with Base := b0, Axis := d0 } f
              (toRadians ({ s with Reversed := false } : RevState S).Angle2) = f := by
            simp [preRotatedSketch, hM, hT]
          have e3 : adjustedAngle { ({ s with Reversed := true }) with Base := b0, Axis := d0 }
              (signedAngle { s with Reversed := true })
              (toRadians ({ s with Reversed := true } : RevState S).Angle2)
              = -(toRadians s.Angle) := by
            simp [adjustedAngle, signedAngle, hM, hT]
          have e4 : adjustedAngle { ({ s with Reversed := false }) with Base := b0, Axis := d0 }
              (signedAngle { s with Reversed := false })
              (toRadians ({ s with Reversed := false } : RevState S).Angle2)
              = toRadians s.Angle := by
            simp [adjustedAngle, signedAngle, hM, hT]
          rw [e1, e2, e3, e4]
          have e5 : sweepStage kneg
              { ({ s with Reversed := false }) with Base := b0, Axis := d0 } f
              (match kneg.getBaseShape with | .error _ => kneg.nullShape | .ok b => b)
              (toRadians s.Angle)
              = sweepStage k
              { ({ s with Reversed := false }) with Base := b0, Axis := d0 } f
              (match k.getBaseShape with | .error _ => k.nullShape | .ok b => b)
              (-(toRadians s.Angle)) := by
            rw [hkn]
            rfl
          rw [e5]
          exact sweepStage_state_congr k _ _ _ _ _ (Or.inl rfl) rfl rfl rfl rfl
  · intro hM b b'
    by_cases hA1 : s.Angle > 360
    · simp [execute, hA1, sameResult]
    by_cases hA2 : toRadians s.Angle < precisionAngular
    · simp [execute, hA1, hA2, sameResult]
    cases hvf : k.getVerifiedFace with
    | error e => simp [execute, hA1, hA2, hvf, sameResult]
    | ok f =>
      cases hax : k.getAxis with
      | error e => simp [execute, updateAxis, hA1, hA2, hvf, hax, sameResult]
      | ok bd =>
        obtain ⟨b0, d0⟩ := bd
        rw [execute_ok k { s with Reversed := b } f b0 d0 hA1 hA2 hvf hax,
          execute_ok k { s with Reversed := b' } f b0 d0 hA1 hA2 hvf hax]
        by_cases hN : k.isNull f = true
        · simp [afterValidation, hN, sameResult]
        · rw [afterValidation_notNull k _ _ _ _ _ (by simpa using hN),
            afterValidation_notNull k _ _ _ _ _ (by simpa using hN)]
          have e1 : ∀ c : Bool, preRotatedSketch k
              { ({ s with Reversed := c }) with Base := b0, Axis := d0 } f
              (toRadians ({ s with Reversed := c } : RevState S).Angle2)
              = k.move f (k.rotation b0 d0 (-(toRadians s.Angle) / 2)) := by
            intro c
            simp [preRotatedSketch, hM]
          have e2 : ∀ c : Bool, adjustedAngle
              { ({ s with Reversed := c }) with Base := b0, Axis := d0 }
              (signedAngle { s with Reversed := c })
              (toRadians ({ s with Reversed := c } : RevState S).Angle2)
              = toRadians s.Angle := by
            intro c
            simp [adjustedAngle, signedAngle, hM]
          rw [e1 b, e1 b', e2 b, e2 b']
          exact sweepStage_state_congr k _ _ _ _ _ (Or.inl rfl) rfl rfl rfl rfl
  · intro hM sk a2
    simp [preRotatedSketch, hM]

/-- Claim C5 witness: with Midplane set, Reversed on and off give the same
result on the concrete kernel. -/
theorem angle_sign_midplane_witness :
    sameResult (execute K0 { ({ S0 with Midplane := true }) with Reversed := true })
      (execute K0 { ({ S0 with Midplane := true }) with Reversed := false }) :=
  (angle_sign_midplane K0 { S0 with Midplane := true }).2.2.1 rfl true false

/-- Claim C6: for Type = TwoAngles (with Midplane and Reversed unset) the
profile is pre-rotated about the resolved axis by -angle2 and the sweep angle
handed on becomes angle + angle2; concretely, Angle = 30 with Angle2 = 20 is
equivalent — same outcome, committed Shape and committed AddSubShape — to
Type = Angle with Angle = 50 on the profile pre-rotated by -20 degrees. -/
theorem twoAngles_equiv_angle {S T : Type} (k : Kernel S T) (s : RevState S)
    (f : S) (b0 d0 : Vec3)
    (hT : s.Type' = .twoAngles) (hA : s.Angle = 30) (hA2 : s.Angle2 = 20)
    (hR : s.Reversed = false) (hM : s.Midplane = false)
    (hVF : k.getVerifiedFace = .ok f) (hAx : k.getAxis = .ok (b0, d0))
    (hmv : ∀ x t, k.isNull (k.move x t) = k.isNull x) :
    (∀ sk a a2, preRotatedSketch k { s with Base := b0, Axis := d0 } sk a2
        = k.move sk (k.rotation b0 d0 (-a2)) ∧
      adjustedAngle { s with Base := b0, Axis := d0 } a a2 = a + a2) ∧
    sameResult (execute k s)
      (execute { k with getVerifiedFace := Except.ok (k.move f (k.rotation b0 d0 (-(toRadians 20)))) }
        { s with Type' := .angle, Angle := 50 }) := by
  constructor
  · intro sk a a2
    constructor
    · simp [preRotatedSketch, hM, hT]
    · simp [adjustedAngle, hM, hT]
  · set k2 : Kernel S T := { k with getVerifiedFace := Except.ok (k.move f (k.rotation b0 d0 (-(toRadians 20)))) } with hk2
    have hA1 : ¬ s.Angle > 360 := by rw [hA]; decide
    have hA2v : ¬ toRadians s.Angle < precisionAngular := by rw [hA]; decide
    have hA1' : ¬ ({ s with Type' := RevolType.angle, Angle := (50 : ℚ) } : RevState S).Angle
        > 360 := by show ¬ (50 : ℚ) > 360; decide
    have hA2v' : ¬ toRadians
        ({ s with Type' := RevolType.angle, Angle := (50 : ℚ) } : RevState S).Angle
        < precisionAngular := by show ¬ toRadians (50 : ℚ) < precisionAngular; decide
    rw [execute_ok k s f b0 d0 hA1 hA2v hVF hAx,
      execute_ok k2 { s with Type' := .angle, Angle := 50 }
        (k.move f (k.rotation b0 d0 (-(toRadians 20)))) b0 d0 hA1' hA2v'
        (by rw [hk2]) (by rw [hk2]; exact hAx)]
    by_cases hN : k.isNull f = true
    · have hN2 : k2.isNull (k.move f (k.rotation b0 d0 (-(toRadians 20)))) = true := by
        rw [hk2]
        exact (hmv _ _).trans hN
      simp [afterValidation, hN, hmv, sameResult]
    · have hN' : k.isNull f = false := by simpa using hN
      have hN2 : k2.isNull (k.move f (k.rotation b0 d0 (-(toRadians 20)))) = false := by
        rw [hk2]
        exact (hmv _ _).trans hN'
      rw [afterValidation_notNull k _ _ _ _ _ hN',
        afterValidation_notNull k2 _ _ _ _ _ hN2]
      have e1 : preRotatedSketch k { s with Base := b0, Axis := d0 } f (toRadians s.Angle2)
          = k.move f (k.rotation b0 d0 (-(toRadians 20))) := by
        simp [preRotatedSketch, hM, hT, hA2]
      have e2 : preRotatedSketch k2
          { ({ s with Type' := RevolType.angle, Angle := (50 : ℚ) }) with Base := b0, Axis := d0 }
          (k.move f (k.rotation b0 d0 (-(toRadians 20))))
          (toRadians ({ s with Type' := RevolType.angle, Angle := (50 : ℚ) } :
            RevState S).Angle2)
          = k.move f (k.rotation b0 d0 (-(toRadians 20))) := by
        simp [preRotatedSketch, hM]
      have e3 : adjustedAngle { s with Base := b0, Axis := d0 } (signedAngle s)
          (toRadians s.Angle2) = toRadians 50 := by
        simp only [adjustedAngle, signedAngle]
        simp only [show ({ s with Base := b0, Axis := d0 } : RevState S).Midplane
            = s.Midplane from rfl,
          show ({ s with Base := b0, Axis := d0 } : RevState S).Type' = s.Type' from rfl,
          hM, hT, hR, hA, hA2]
        norm_num
        decide
      have e4 : adjustedAngle
          { ({ s with Type' := RevolType.angle, Angle := (50 : ℚ) }) with Base := b0, Axis := d0 }
          (signedAngle { s with Type' := RevolType.angle, Angle := (50 : ℚ) })
          (toRadians ({ s with Type' := RevolType.angle, Angle := (50 : ℚ) } :
            RevState S).Angle2)
          = toRadians 50 := by
        simp [adjustedAngle, signedAngle, hM, hR]
      rw [e1, e2, e3, e4]
      have e5 : sweepStage k2
          { ({ s with Type' := RevolType.angle, Angle := (50 : ℚ) }) with Base := b0, Axis := d0 }
          (k.move f (k.rotation b0 d0 (-(toRadians 20))))
          (match k2.getBaseShape with | .error _ => k2.nullShape | .ok b => b)
          (toRadians 50)
          = sweepStage k
          { ({ s with Type' := RevolType.angle, Angle := (50 : ℚ) }) with Base := b0, Axis := d0 }
          (k.move f (k.rotation b0 d0 (-(toRadians 20))))
          (match k.getBaseShape with | .error _ => k.nullShape | .ok b => b)
          (toRadians 50) := by
        rw [hk2]
        rfl
      rw [e5]
      refine sweepStage_state_congr k _ _ _ _ _ (Or.inr ⟨?_, ?_⟩) rfl rfl rfl rfl
      · rw [show ({ s with Base := b0, Axis := d0 } : RevState S).Type' = s.Type' from rfl, hT]
        decide
      · show ¬ isUpTo RevolType.angle
        decide

/-- Claim C6 witness: the equivalence applied to the concrete kernel with
Angle = 30, Angle2 = 20 versus Angle = 50 on the pre-rotated profile. -/
theorem twoAngles_equiv_angle_witness :
    sameResult (execute K0 { S0 with Type' := .twoAngles, Angle := 30, Angle2 := 20 })
      (execute { K0 with getVerifiedFace := Except.ok (K0.move 1 (K0.rotation ⟨0, 0, 0⟩ ⟨0, 1, 0⟩ (-(toRadians 20)))) }
        { ({ S0 with Type' := .twoAngles, Angle := 30, Angle2 := 20 }) with
            Type' := .angle, Angle := 50 }) :=
  (twoAngles_equiv_angle K0 { S0 with Type' := .twoAngles, Angle := 30, Angle2 := 20 }
    1 ⟨0, 0, 0⟩ ⟨0, 1, 0⟩ rfl rfl rfl rfl rfl rfl rfl (fun _ _ => rfl)).2

end FeatureRevolution
